import Mathlib

/-!
# Verification of the Meal-Planner workflow core (`MealAgent/execution.py`)

Shallow embedding of the pydantic data model and of the `MealPlannerAgent`
node and decision functions, followed by theorems settling the spec claims.

Conventions of the embedding:
* `Optional[T]` fields become `Option T`; pydantic defaults become structure
  field defaults.
* The hosted-model adapter (`self.model.with_structured_output(S).invoke`)
  is an explicit function parameter returning `Except String S`, where the
  `String` of the error case is Python's `str(e)` for the raised exception.
* A node that can raise an uncaught Python exception returns
  `Except PyErr AgentState`; `.error` is the propagated exception.
* LangGraph merge semantics: `AgentState.messages` is annotated with
  `operator.add`, so a node that returns a partial update containing a
  `messages` list has that list *appended* to the log; every other field of
  a partial update overwrites the previous value.  Nodes that return partial
  dicts are embedded directly as the merged full state.
-/

/-- An uncaught Python exception propagated out of a node. -/
inductive PyErr where
  | typeError (msg : String)
  | attributeError (msg : String)
  deriving DecidableEq, Repr

/-- `langchain_core.messages.BaseMessage` restricted to the constructors the
agent actually builds: `SystemMessage`, `HumanMessage`, `AIMessage`.
The block-structured content of the (dead) image prompt is not modelled;
every message the reachable code appends carries a plain string. -/
inductive BaseMessage where
  | system (content : String)
  | human (content : String)
  | ai (content : String)
  deriving DecidableEq, Repr

/-- `class Clarification(BaseModel)`. -/
structure Clarification where
  question : Option String := none
  deriving DecidableEq, Repr

/-- `class ImageProcessingOutput(BaseModel)` (the spec's `ImageAnalysis`). -/
structure ImageProcessingOutput where
  image_name : Option String := none
  image_description : Option String := none
  clarification_needed : Option Bool := none
  clarification_question : Option Clarification := none
  deriving DecidableEq, Repr

/-- `class Ingredient(BaseModel)`. -/
structure Ingredient where
  ingredient_name : Option String := none
  deriving DecidableEq, Repr

/-- `class MealRecipe(BaseModel)` (the spec's `Recipe`).  `cooking_steps`
has `default_factory=list`, i.e. its default is the empty list, not `None`. -/
structure MealRecipe where
  meal_name : Option String := none
  meal_description : Option String := none
  ingredients_list : Option (List Ingredient) := none
  what_you_have : Option (List String) := none
  what_you_need_to_buy : Option (List String) := none
  duration_of_the_meal : Option String := none
  cooking_steps : Option (List String) := some []
  approve : Option Bool := none
  deriving DecidableEq, Repr

/-- `class ExecutionTime(BaseModel)`. -/
structure ExecutionTime where
  start_time : Option String := none
  end_time : Option String := none
  execution_time : Option String := none
  deriving DecidableEq, Repr

/-- `class CurrentConversationInput(BaseModel)` (the spec's
`ConversationInput`).  `images` is annotated `Optional[List[str]]`, but the
clarification node assigns `[user_response.get("url")]` without validation
(pydantic does not validate on attribute assignment by default), so an
element may be Python's `None`; the element type is therefore
`Option String`. -/
structure CurrentConversationInput where
  goal : Option String := none
  instructions : Option String := none
  images : Option (List (Option String)) := none
  deriving DecidableEq, Repr

/-- `class AgentState(BaseModel)` (the spec's `ConversationState`), with the
source's defaults: `image_processing_output` default-constructed,
`retry_policy = 2`, `need_human = False`, everything else `None`/empty. -/
structure AgentState where
  messages : List BaseMessage := []
  current_conversation_input : Option CurrentConversationInput := none
  image_processing_output : ImageProcessingOutput := {}
  meal_recipe : Option MealRecipe := none
  errors : List String := []
  retry_policy : Int := 2
  clarification : Option Clarification := none
  need_human : Bool := false
  execution_time : Option ExecutionTime := none
  current_node_name : Option String := none
  deriving DecidableEq, Repr

/-- Python truthiness of an `Optional[bool]`: `None` and `False` are falsy. -/
def truthyOptBool : Option Bool → Bool
  | some b => b
  | none => false

/-- Python `f"{x}"` rendering of an `Optional[str]`: `None` prints `"None"`. -/
def pyStr : Option String → String
  | none => "None"
  | some s => s

/-- The exception raised by the statement
`state.execution_time["start_time"] = datetime.datetime.now()`
(`execution.py` line 96).  `execution_time` is `Optional[ExecutionTime]`:
item assignment on `None` raises `TypeError`, and item assignment on a
pydantic `ExecutionTime` instance (which defines no `__setitem__`) also
raises `TypeError`.  No value of the field supports the statement. -/
def execTimeItemAssignErr : Option ExecutionTime → PyErr
  | none => PyErr.typeError "NoneType object does not support item assignment"
  | some _ => PyErr.typeError "ExecutionTime object does not support item assignment"

/-- `MealPlannerAgent.process_images` (`execution.py` lines 91-164).
The body first sets `current_node_name`, then executes
`state.execution_time["start_time"] = datetime.datetime.now()`, which raises
`TypeError` for every possible value of `execution_time`
(see `execTimeItemAssignErr`).  Everything after that statement — the
missing-images check appending `"No images provided"`, the prompt assembly,
and the model call — is unreachable, so the node is embedded as the raised
exception; `adapter` (the structured-output model call) is never consulted. -/
def process_images
    (_adapter : List BaseMessage → Except String ImageProcessingOutput)
    (s : AgentState) : Except PyErr AgentState :=
  let s := { s with current_node_name := some "process_images" }
  Except.error (execTimeItemAssignErr s.execution_time)

/-- The resume value handed back by `interrupt` inside
`image_clarification_node`: an untyped dict inspected with `.get("type")`,
`.get("url")` and `.get("text", "")`.  Each field is the `.get` result. -/
structure ResumeValue where
  type : Option String := none
  url : Option String := none
  text : Option String := none
  deriving DecidableEq, Repr

/-- `MealPlannerAgent.image_clarification_node` (`execution.py` lines
168-190), with the graph's merge applied to the partial updates it returns.
If `user_response.get("type") == "image_url"`, the node copies
`current_conversation_input` (an `AttributeError` when it is `None`),
replaces its image list by the one-element list `[user_response.get("url")]`,
and clears `need_human`; the `messages` channel is untouched.  Otherwise it
returns a one-element `messages` update — appended to the log by the
`operator.add` reducer — containing
`HumanMessage(content=user_response.get("text", ""))`, and clears
`need_human`. -/
def image_clarification_node (resume : ResumeValue) (s : AgentState) :
    Except PyErr AgentState :=
  if resume.type = some "image_url" then
    match s.current_conversation_input with
    | none =>
        Except.error (PyErr.attributeError
          "NoneType object has no attribute model_copy")
    | some ci =>
        Except.ok { s with
          current_conversation_input := some { ci with images := some [resume.url] },
          need_human := false }
  else
    Except.ok { s with
      messages := s.messages ++ [BaseMessage.human (resume.text.getD "")],
      need_human := false }

/-- `MealPlannerAgent.approve_reject_meal` (`execution.py` lines 192-234),
with `value` the resume value of its `interrupt`.  When a recipe is present
it sets `approve` on `"approve"`/`"reject"` and otherwise returns the state
unchanged (the trailing `return state`); when no recipe is present it only
appends an apology message.  This node is never wired into the graph. -/
def approve_reject_meal (value : String) (s : AgentState) : AgentState :=
  match s.meal_recipe with
  | some r =>
      if value = "approve" then
        { s with
          meal_recipe := some { r with approve := some true },
          messages := s.messages ++ [BaseMessage.human "I have approved this meal"],
          need_human := false,
          clarification := none }
      else if value = "reject" then
        { s with
          meal_recipe := some { r with approve := some false },
          messages := s.messages ++
            [BaseMessage.human "I have rejected this meal.Please generate another one"],
          need_human := false,
          clarification := none }
      else s
  | none =>
      { s with
        messages := s.messages ++
          [BaseMessage.human "No meal recipe was available to approve/reject."],
        need_human := false,
        clarification := none }

/-- `MealPlannerAgent.decision_node` (`execution.py` lines 237-243): routes
on the truthiness of `image_processing_output.clarification_needed`. -/
def decision_node (s : AgentState) : String :=
  if truthyOptBool s.image_processing_output.clarification_needed then
    "image_clarification_node"
  else
    "generate_meal_recipe"

/-- `MealPlannerAgent.regenerate_meal` (`execution.py` lines 246-257), with
`response` the resume value of its `interrupt` (a string).  Routes back to
generation when the recipe is absent or `response.lower() == "false"`,
otherwise to `"END"`. -/
def regenerate_meal (response : String) (s : AgentState) : String :=
  if s.meal_recipe.isNone || response.toLower == "false" then
    "generate_meal_recipe"
  else
    "END"

/-- The inventory string of `generate_meal_recipe`
(`f"{...image_name}: {...image_description}"`), a function of the state's
`image_processing_output`.  The state schema types that field as a single
`ImageProcessingOutput`, so the `isinstance(..., list)` branch of the source
is unreachable and the single-item branch is embedded. -/
def inventory_str (out : ImageProcessingOutput) : String :=
  pyStr out.image_name ++ ": " ++ pyStr out.image_description

/-- The fixed chef system prompt of `generate_meal_recipe`. -/
def chef_system_prompt : String :=
  "\n        You are a professional Resourceful Chef.\n        Your goal is to suggest ONE meal plan based on the ingredients provided.\n\n        CRITICAL: You must provide clear, step-by-step cooking instructions in the 'cooking_steps' field.\n\n        Logic:\n        - Use 'what_you_have' for items found in the image.\n        - Use 'what_you_need_to_buy' for missing essentials.\n        - Ensure the recipe fits the user's time constraints.\n        "

/-- The human prompt of `generate_meal_recipe` (the f-string at lines
282-288), built from the conversation input and the inventory string. -/
def chef_human_prompt (ci : CurrentConversationInput) (inv : String) : String :=
  "\n        User Goal: " ++ pyStr ci.goal ++
    "\n        Extra Instructions: " ++ pyStr ci.instructions ++
    "\n\n        Inventory detected in photos:\n        " ++ inv ++ "\n        "

/-- `MealPlannerAgent.generate_meal_recipe` (`execution.py` lines 259-302).
Builds the inventory string, then the f-string human prompt — which reads
`state.current_conversation_input.goal` and raises `AttributeError` when the
conversation input is `None` — and invokes the chef adapter.  On success the
returned recipe is stored as-is in `meal_recipe`; on an adapter exception
`e`, `f"Chef Error: {str(e)}"` is appended to `errors` and `meal_recipe` is
left untouched. -/
def generate_meal_recipe
    (adapter : List BaseMessage → Except String MealRecipe)
    (s : AgentState) : Except PyErr AgentState :=
  let inv := inventory_str s.image_processing_output
  match s.current_conversation_input with
  | none =>
      Except.error (PyErr.attributeError "NoneType object has no attribute goal")
  | some ci =>
      match adapter [BaseMessage.system chef_system_prompt,
                     BaseMessage.human (chef_human_prompt ci inv)] with
      | Except.ok recipe => Except.ok { s with meal_recipe := some recipe }
      | Except.error e =>
          Except.ok { s with errors := s.errors ++ ["Chef Error: " ++ e] }

/-- The wiring performed by `MealPlannerAgent.build_graph`
(`execution.py` lines 305-346): node names added with `add_node`, plain
edges added with `add_edge`, and conditional edges with their routing maps. -/
structure StateGraphModel where
  nodes : List String
  edges : List (String × String)
  conditional_edges : List (String × List (String × String))
  deriving DecidableEq, Repr

/-- `MealPlannerAgent.build_graph`: three nodes, the `START` edge, the
clarification-loop edge, and the two conditional edges routed by
`decision_node` and `regenerate_meal`. -/
def build_graph : StateGraphModel :=
  { nodes := ["process_images", "generate_meal_recipe", "image_clarification_node"],
    edges := [("START", "process_images"),
              ("image_clarification_node", "process_images")],
    conditional_edges :=
      [("process_images",
        [("image_clarification_node", "image_clarification_node"),
         ("generate_meal_recipe", "generate_meal_recipe")]),
       ("generate_meal_recipe",
        [("generate_meal_recipe", "generate_meal_recipe"),
         ("END", "END")])] }

/-- The recipe-approval flag visible in a state: `meal_recipe.approve` when
a recipe is stored, `none` otherwise. -/
def mealApprove (s : AgentState) : Option Bool :=
  match s.meal_recipe with
  | none => none
  | some r => r.approve

/-- Reachable (node, state) configurations of the compiled graph, for fixed
external behaviours: `imgAdapter`/`chefAdapter` the model calls, `resume`
the clarification resume value, `response` the approve/reject resume value.
A run enters at `process_images` with the initial state (`add_edge(START,
"process_images")`); after a node returns normally, the next node is the one
its outgoing (conditional) edge selects.  A node that raises produces no
successor configuration. -/
inductive Reachable
    (imgAdapter : List BaseMessage → Except String ImageProcessingOutput)
    (chefAdapter : List BaseMessage → Except String MealRecipe)
    (resume : ResumeValue) (response : String)
    (init : AgentState) : String × AgentState → Prop where
  | start : Reachable imgAdapter chefAdapter resume response init
      ("process_images", init)
  | from_process_images (s s' : AgentState) :
      Reachable imgAdapter chefAdapter resume response init ("process_images", s) →
      process_images imgAdapter s = Except.ok s' →
      Reachable imgAdapter chefAdapter resume response init (decision_node s', s')
  | from_clarification (s s' : AgentState) :
      Reachable imgAdapter chefAdapter resume response init
        ("image_clarification_node", s) →
      image_clarification_node resume s = Except.ok s' →
      Reachable imgAdapter chefAdapter resume response init ("process_images", s')
  | from_generate (s s' : AgentState) :
      Reachable imgAdapter chefAdapter resume response init
        ("generate_meal_recipe", s) →
      generate_meal_recipe chefAdapter s = Except.ok s' →
      Reachable imgAdapter chefAdapter resume response init
        (regenerate_meal response s', s')

/-! ## Concrete fixtures -/

/-- The conversation input of the spec's end-to-end scenario. -/
def sampleInput : CurrentConversationInput :=
  { goal := some "Quick Meal", instructions := some "vegetarian",
    images := some [some "fridge.jpg"] }

/-- The documented initial state: `ConversationInput` populated, everything
else at its default. -/
def sampleState : AgentState :=
  { current_conversation_input := some sampleInput }

/-! ## Helper lemmas -/

theorem process_images_never_ok
    (adapter : List BaseMessage → Except String ImageProcessingOutput)
    (s t : AgentState) : process_images adapter s ≠ Except.ok t := by
  intro h
  simp only [process_images] at h
  exact Except.noConfusion h

theorem reachable_eq_init
    (imgAdapter : List BaseMessage → Except String ImageProcessingOutput)
    (chefAdapter : List BaseMessage → Except String MealRecipe)
    (resume : ResumeValue) (response : String)
    (init : AgentState) (p : String × AgentState)
    (h : Reachable imgAdapter chefAdapter resume response init p) :
    p = ("process_images", init) := by
  induction h with
  | start => rfl
  | from_process_images s s' hr hok ih =>
      exact absurd hok (process_images_never_ok _ _ _)
  | from_clarification s s' hr hok ih =>
      have hname : "image_clarification_node" = "process_images" :=
        congrArg Prod.fst ih
      exact absurd hname (by decide)
  | from_generate s s' hr hok ih =>
      have hname : "generate_meal_recipe" = "process_images" :=
        congrArg Prod.fst ih
      exact absurd hname (by decide)

/-! ## Claims -/

/-- C1 (counterexample): `generate_meal_recipe` does NOT substitute a
three-step fallback for an empty step list.  With an adapter that returns a
recipe whose `cooking_steps` is the empty list, the node stores that recipe
verbatim: the output state's recipe has `cooking_steps = some []` — the node
does store a recipe with an empty step list. -/
theorem c1_empty_steps_stored :
    (generate_meal_recipe (fun _ => Except.ok { cooking_steps := some [] })
        sampleState).map (fun t => t.meal_recipe.map MealRecipe.cooking_steps)
      = Except.ok (some (some [])) := rfl

/-- C1 (amended): whenever the chef adapter returns a recipe,
`generate_meal_recipe` stores it in `meal_recipe` unchanged — no
post-processing of the step list takes place, and a recipe with an empty
step list is stored as-is. -/
theorem c1_recipe_stored_verbatim
    (adapter : List BaseMessage → Except String MealRecipe)
    (s : AgentState) (ci : CurrentConversationInput) (recipe : MealRecipe)
    (hci : s.current_conversation_input = some ci)
    (hok : adapter [BaseMessage.system chef_system_prompt,
        BaseMessage.human (chef_human_prompt ci (inventory_str s.image_processing_output))]
      = Except.ok recipe) :
    generate_meal_recipe adapter s = Except.ok { s with meal_recipe := some recipe } := by
  simp [generate_meal_recipe, hci, hok]

/-- C1 witness: the amended claim at a concrete input (a recipe with an
empty step list, stored verbatim). -/
theorem c1_recipe_stored_verbatim_witness :
    generate_meal_recipe
        (fun _ => Except.ok { meal_name := some "Toast", cooking_steps := some [] })
        sampleState
      = Except.ok { sampleState with
          meal_recipe := some { meal_name := some "Toast", cooking_steps := some [] } } :=
  c1_recipe_stored_verbatim _ sampleState sampleInput _ rfl rfl

/-- C2 (code bug, claim unreachable): on the default-constructed state —
which has no `ConversationInput`, hence no images — `process_images` does
not append `"No images provided"` and return the state; it raises
`TypeError` at `state.execution_time["start_time"] = ...` before the
missing-images check is reached. -/
theorem c2_missing_images_crash :
    (({} : AgentState).current_conversation_input = none
      ∧ ({} : AgentState).errors = [])
    ∧ process_images (fun _ => Except.error "quota") {}
      = Except.error
          (PyErr.typeError "NoneType object does not support item assignment") :=
  ⟨⟨rfl, rfl⟩, rfl⟩

/-- C3: for every state whose `execution_time` is the default `None`,
`process_images` raises `TypeError` at the
`state.execution_time["start_time"]` item assignment; no success or
soft-error output is produced, and the result is independent of the model
adapter (no model call is made). -/
theorem c3_process_images_raises
    (adapter adapter2 : List BaseMessage → Except String ImageProcessingOutput)
    (s : AgentState) (h : s.execution_time = none) :
    process_images adapter s
        = Except.error
            (PyErr.typeError "NoneType object does not support item assignment")
      ∧ process_images adapter s = process_images adapter2 s := by
  refine ⟨?_, rfl⟩
  simp [process_images, execTimeItemAssignErr, h]

/-- C3 witness: the default-constructed `AgentState`. -/
theorem c3_process_images_raises_witness :
    process_images (fun _ => Except.ok {}) {}
        = Except.error
            (PyErr.typeError "NoneType object does not support item assignment")
      ∧ process_images (fun _ => Except.ok {}) ({} : AgentState)
        = process_images (fun _ => Except.error "boom") ({} : AgentState) :=
  c3_process_images_raises _ _ {} rfl

/-- C4: whenever the chef adapter raises during recipe generation, the node
returns the state with exactly one `"Chef Error: "`-prefixed entry appended
to the error list and every other field — in particular `meal_recipe` —
unchanged. -/
theorem c4_chef_error_appended
    (adapter : List BaseMessage → Except String MealRecipe)
    (s : AgentState) (ci : CurrentConversationInput) (e : String)
    (hci : s.current_conversation_input = some ci)
    (herr : adapter [BaseMessage.system chef_system_prompt,
        BaseMessage.human (chef_human_prompt ci (inventory_str s.image_processing_output))]
      = Except.error e) :
    generate_meal_recipe adapter s
      = Except.ok { s with errors := s.errors ++ ["Chef Error: " ++ e] } := by
  simp [generate_meal_recipe, hci, herr]

/-- C4 witness: a concrete adapter failure on the sample state. -/
theorem c4_chef_error_appended_witness :
    generate_meal_recipe (fun _ => Except.error "429 quota exceeded") sampleState
      = Except.ok { sampleState with
          errors := sampleState.errors ++ ["Chef Error: " ++ "429 quota exceeded"] } :=
  c4_chef_error_appended _ sampleState sampleInput _ rfl rfl

/-- C5: `decision_node` routes to `"image_clarification_node"` exactly when
`clarification_needed` is `some true` (truthy), routes to
`"generate_meal_recipe"` for `some false` and `none`, and no third outcome
is possible. -/
theorem c5_decision_two_way (s : AgentState) :
    (decision_node s = "image_clarification_node"
        ↔ s.image_processing_output.clarification_needed = some true)
      ∧ (decision_node s = "image_clarification_node"
          ∨ decision_node s = "generate_meal_recipe") := by
  cases h : s.image_processing_output.clarification_needed with
  | none => simp [decision_node, truthyOptBool, h]
  | some b => cases b <;> simp [decision_node, truthyOptBool, h]

/-- C6: resuming a suspended clarification.  A text-shaped answer (any
resume whose `type` is not `"image_url"`) appends exactly one human-authored
message carrying the answer text and clears `need_human`, leaving the image
list (and every other field) unchanged; an image-url-shaped answer replaces
the `ConversationInput` image list with the one-element list holding the
supplied url and clears `need_human`, leaving the message log unchanged. -/
theorem c6_clarification_resume (resume : ResumeValue) (s : AgentState)
    (ci : CurrentConversationInput)
    (hci : s.current_conversation_input = some ci) :
    (resume.type ≠ some "image_url" →
      image_clarification_node resume s
        = Except.ok { s with
            messages := s.messages ++ [BaseMessage.human (resume.text.getD "")],
            need_human := false })
    ∧ (resume.type = some "image_url" →
      image_clarification_node resume s
        = Except.ok { s with
            current_conversation_input := some { ci with images := some [resume.url] },
            need_human := false }) := by
  constructor
  · intro hne
    simp [image_clarification_node, hne]
  · intro heq
    simp [image_clarification_node, heq, hci]

/-- C6 witness: both resume shapes at concrete inputs. -/
theorem c6_clarification_resume_witness :
    image_clarification_node { text := some "They are Sweet Potatoes" } sampleState
        = Except.ok { sampleState with
            messages := sampleState.messages
              ++ [BaseMessage.human "They are Sweet Potatoes"],
            need_human := false }
      ∧ image_clarification_node
          { type := some "image_url", url := some "new.jpg" } sampleState
        = Except.ok { sampleState with
            current_conversation_input :=
              some { sampleInput with images := some [some "new.jpg"] },
            need_human := false } :=
  ⟨(c6_clarification_resume { text := some "They are Sweet Potatoes" }
      sampleState sampleInput rfl).1 (by decide),
   (c6_clarification_resume { type := some "image_url", url := some "new.jpg" }
      sampleState sampleInput rfl).2 rfl⟩

/-- C7: `regenerate_meal` routes back to `"generate_meal_recipe"` exactly
when the stored recipe is absent or the human rejects (the resume string is
`"False"` case-insensitively, i.e. `response.lower() == "false"`); any other
answer with a recipe present — approval — routes to `"END"`, and these are
the only two outcomes. -/
theorem c7_regenerate_two_way (response : String) (s : AgentState) :
    (regenerate_meal response s = "generate_meal_recipe"
        ↔ (s.meal_recipe = none ∨ response.toLower = "false"))
      ∧ (regenerate_meal response s = "generate_meal_recipe"
          ∨ regenerate_meal response s = "END") := by
  by_cases hnone : s.meal_recipe = none
  · simp [regenerate_meal, hnone]
  · by_cases hlow : response.toLower = "false"
    · simp [regenerate_meal, hnone, hlow]
    · simp [regenerate_meal, hnone, hlow, Option.isNone_iff_eq_none]

/-- C8: the message log only grows.  For each node of the workflow graph,
whenever the node produces an output state, the input message log is a
prefix of the output message log.  (`process_images` never produces an
output state — it raises at the `execution_time` item assignment — so its
conjunct holds vacuously; the clarification and recipe nodes either leave
the log unchanged or append to it.) -/
theorem c8_message_log_only_grows
    (imgAdapter : List BaseMessage → Except String ImageProcessingOutput)
    (chefAdapter : List BaseMessage → Except String MealRecipe)
    (resume : ResumeValue) (s s1 s2 : AgentState)
    (h1 : image_clarification_node resume s = Except.ok s1)
    (h2 : generate_meal_recipe chefAdapter s = Except.ok s2) :
    (∀ t, process_images imgAdapter s = Except.ok t → s.messages <+: t.messages)
      ∧ s.messages <+: s1.messages ∧ s.messages <+: s2.messages := by
  refine ⟨fun t ht => absurd ht (process_images_never_ok _ _ _), ?_, ?_⟩
  · by_cases hreq : resume.type = some "image_url"
    · cases hci : s.current_conversation_input with
      | none => simp [image_clarification_node, hreq, hci] at h1
      | some ci =>
          simp only [image_clarification_node, hreq, if_pos, hci] at h1
          cases h1
          exact List.prefix_refl _
    · simp only [image_clarification_node, if_neg hreq] at h1
      cases h1
      exact List.prefix_append _ _
  · cases hci : s.current_conversation_input with
    | none => simp [generate_meal_recipe, hci] at h2
    | some ci =>
        cases hres : chefAdapter [BaseMessage.system chef_system_prompt,
            BaseMessage.human (chef_human_prompt ci (inventory_str s.image_processing_output))] with
        | ok recipe =>
            simp only [generate_meal_recipe, hci, hres] at h2
            cases h2
            exact List.prefix_refl _
        | error e =>
            simp only [generate_meal_recipe, hci, hres] at h2
            cases h2
            exact List.prefix_refl _

/-- C8 witness: all three conjuncts at a concrete state, with a text resume
and a successful chef adapter. -/
theorem c8_message_log_only_grows_witness :
    (∀ t, process_images (fun _ => Except.error "x") sampleState = Except.ok t →
        sampleState.messages <+: t.messages)
      ∧ sampleState.messages <+:
          ({ sampleState with
              messages := sampleState.messages ++ [BaseMessage.human "ok"],
              need_human := false } : AgentState).messages
      ∧ sampleState.messages <+:
          ({ sampleState with meal_recipe := some {} } : AgentState).messages :=
  c8_message_log_only_grows (fun _ => Except.error "x") (fun _ => Except.ok {})
    { text := some "ok" } sampleState _ _ rfl rfl

/-- C9: the retry budget is dead configuration.  Changing `retry_policy` in
the input state changes nothing in any node's or decision's behaviour except
that the output carries the same `retry_policy` value through: each graph
node commutes with setting `retry_policy`, and both decision functions are
invariant under it.  In particular every node's output `retry_policy` equals
its input's, and no node reads the field (no automatic retry exists). -/
theorem c9_retry_policy_dead
    (imgAdapter : List BaseMessage → Except String ImageProcessingOutput)
    (chefAdapter : List BaseMessage → Except String MealRecipe)
    (resume : ResumeValue) (response : String) (s : AgentState) (k : Int) :
    process_images imgAdapter { s with retry_policy := k }
        = (process_images imgAdapter s).map (fun t => { t with retry_policy := k })
      ∧ image_clarification_node resume { s with retry_policy := k }
          = (image_clarification_node resume s).map
              (fun t => { t with retry_policy := k })
      ∧ generate_meal_recipe chefAdapter { s with retry_policy := k }
          = (generate_meal_recipe chefAdapter s).map
              (fun t => { t with retry_policy := k })
      ∧ decision_node { s with retry_policy := k } = decision_node s
      ∧ regenerate_meal response { s with retry_policy := k }
          = regenerate_meal response s := by
  refine ⟨rfl, ?_, ?_, rfl, rfl⟩
  · by_cases hreq : resume.type = some "image_url"
    · cases hci : s.current_conversation_input with
      | none => simp [image_clarification_node, hreq, hci, Except.map]
      | some ci => simp [image_clarification_node, hreq, hci, Except.map]
    · simp [image_clarification_node, hreq, Except.map]
  · cases hci : s.current_conversation_input with
    | none => simp [generate_meal_recipe, hci, Except.map]
    | some ci =>
        cases hres : chefAdapter [BaseMessage.system chef_system_prompt,
            BaseMessage.human (chef_human_prompt ci (inventory_str s.image_processing_output))] with
        | ok recipe =>
            simp [generate_meal_recipe, hci, hres, Except.map]
        | error e =>
            simp [generate_meal_recipe, hci, hres, Except.map]

/-- C10: `build_graph` wires exactly the nodes `process_images`,
`generate_meal_recipe` and `image_clarification_node`; `approve_reject_meal`
— the only function that sets `MealRecipe.approve` — is not among them.
Consequently (and because `process_images`, the entry node, raises on every
input, so no run progresses past the initial configuration), every reachable
configuration of the compiled graph started from a state with no approval
flag still has `mealApprove = none`: the approve flag is never set. -/
theorem c10_approve_never_set
    (imgAdapter : List BaseMessage → Except String ImageProcessingOutput)
    (chefAdapter : List BaseMessage → Except String MealRecipe)
    (resume : ResumeValue) (response : String)
    (init : AgentState) (p : String × AgentState)
    (hinit : mealApprove init = none)
    (hp : Reachable imgAdapter chefAdapter resume response init p) :
    build_graph.nodes
        = ["process_images", "generate_meal_recipe", "image_clarification_node"]
      ∧ "approve_reject_meal" ∉ build_graph.nodes
      ∧ mealApprove p.2 = none := by
  refine ⟨rfl, by decide, ?_⟩
  have hcollapse := reachable_eq_init _ _ _ _ _ _ hp
  subst hcollapse
  exact hinit

/-- C10 witness: the initial configuration of a run started from the sample
state. -/
theorem c10_approve_never_set_witness :
    build_graph.nodes
        = ["process_images", "generate_meal_recipe", "image_clarification_node"]
      ∧ "approve_reject_meal" ∉ build_graph.nodes
      ∧ mealApprove (("process_images", sampleState) : String × AgentState).2 = none :=
  c10_approve_never_set (fun _ => Except.error "x") (fun _ => Except.error "x")
    {} "approve" sampleState ("process_images", sampleState) rfl Reachable.start
